import Mathlib

/-!
Verification development for the StudyMate study-productivity application.

Each data type and operation below is a shallow embedding of a function of
the application source (React/TypeScript client components and Deno edge
functions).  Machine-level JavaScript details are modelled explicitly:
numbers that the code stores stringified are carried as an inductive value
that is either a number or a digit string, JavaScript regular-expression
matching used by the duration parsing and the flashcard fallback extraction
is implemented character by character, and `Math.round` is embedded as
floor (x + 1/2) on rationals (its behaviour on the non-negative values that
occur here).
-/

/-! ## JavaScript primitive helpers -/

/-- ASCII whitespace characters recognised by the JavaScript regex class
backslash-s (the inputs of interest contain only these). -/
def jsIsSpace (c : Char) : Bool :=
  c = ' ' || c = '\t' || c = '\n' || c = '\x0d' || c = '\x0b' || c = '\x0c'

/-- Value of a run of decimal digit characters, as computed by
JavaScript parseInt on a digit-only string. -/
def digitRunVal (ds : List Char) : Nat :=
  ds.foldl (fun a c => a * 10 + (c.toNat - 48)) 0

/-- Case-insensitive prefix test for the ASCII-lowercase pattern `pat`
against the front of `s`, as used by the i-flag of the source regexes. -/
def ciPrefixOf : List Char → List Char → Bool
  | [], _ => true
  | _ :: _, [] => false
  | p :: ps, c :: cs => (c.toLower = p) && ciPrefixOf ps cs

/-! ## StudyPlanner.extractMinutes (src/src/components/StudyPlanner.tsx)

The source matches three regexes against the free-text duration:
an hours pattern `(\d+)(?:\s+)?hours?` (case-insensitive), a minutes
pattern `(\d+)(?:\s+)?minutes?`, and a half-hour pattern
`(\d+\.5)(?:\s+)?hours?`.  For these patterns the backtracking search is
equivalent to: at the leftmost possible start position, take the maximal
digit run, skip any whitespace run, and require the literal word. -/

/-- Match of the pattern digits-whitespace-word at the very start of `s`;
returns the value of the captured digit run. -/
def matchNumWordAt (word : List Char) (s : List Char) : Option Nat :=
  let ds := s.takeWhile Char.isDigit
  if ds.isEmpty then none
  else
    let rest := (s.drop ds.length).dropWhile jsIsSpace
    if ciPrefixOf word rest then some (digitRunVal ds) else none

/-- Leftmost match of digits-whitespace-word anywhere in `s`
(JavaScript String.match semantics for the hours and minutes regexes). -/
def findNumWord (word : List Char) : List Char → Option Nat
  | [] => none
  | c :: cs =>
    match matchNumWordAt word (c :: cs) with
    | some n => some n
    | none => findNumWord word cs

/-- Match of the pattern digits-dot-5-whitespace-word at the start of `s`
(the half-hour regex); only the presence of a match is used by the code. -/
def matchHalfWordAt (word : List Char) (s : List Char) : Bool :=
  let ds := s.takeWhile Char.isDigit
  if ds.isEmpty then false
  else
    match s.drop ds.length with
    | '.' :: '5' :: rest => ciPrefixOf word (rest.dropWhile jsIsSpace)
    | _ => false

/-- Leftmost match of the half-hour pattern anywhere in `s`. -/
def findHalfWord (word : List Char) : List Char → Bool
  | [] => false
  | c :: cs => matchHalfWordAt word (c :: cs) || findHalfWord word cs

/-- Embedding of StudyPlanner's extractMinutes: sums 60 times the hours
match, the minutes match, and 30 when the half-hour pattern occurs, and
falls back to 60 when the sum is zero (JavaScript `totalMinutes || 60`). -/
def extractMinutes (duration : List Char) : Nat :=
  let hourVal := (findNumWord ['h', 'o', 'u', 'r'] duration).getD 0
  let minuteVal := (findNumWord ['m', 'i', 'n', 'u', 't', 'e'] duration).getD 0
  let halfVal := if findHalfWord ['h', 'o', 'u', 'r'] duration then 30 else 0
  let totalMinutes := hourVal * 60 + minuteVal + halfVal
  if totalMinutes = 0 then 60 else totalMinutes

/-! ## Persisted study-session rows

The study_sessions table declares progress and completed as nullable text
columns, and the client stringifies on write (`progress.toString()`,
`completed.toString()`) and parses defensively on read
(`typeof v === 'number' ? v : v ? Number(v) : 0` and the analogous boolean
test against the string "true").  A stringified natural number is carried
as its base-10 digit list (least significant first), which is the
information content of JavaScript `n.toString()`; `Number` on such a digit
string is `Nat.ofDigits 10`. -/

/-- Database value of the progress column: a native number or the digit
string written by `toString` (digits least significant first; the empty
list is the encoding of 0, whose string "0" JavaScript still parses to 0,
so the falsy-string branch below agrees with the source on every encoded
value). -/
inductive DbNum where
  | num (n : Nat)
  | str (ds : List Nat)
deriving DecidableEq, Repr

/-- Database value of the completed column: a native boolean or the string
written by `toString`. -/
inductive DbBool where
  | bool (b : Bool)
  | str (s : String)
deriving DecidableEq, Repr

/-- JavaScript `b.toString()` for a boolean. -/
def jsBoolToString (b : Bool) : String :=
  if b then "true" else "false"

/-- Client read of the progress column:
`typeof p === 'number' ? p : p ? Number(p) : 0`. -/
def parseProgress : DbNum → Nat
  | .num n => n
  | .str ds => if ds.isEmpty then 0 else Nat.ofDigits 10 ds

/-- Client read of the completed column:
`typeof c === 'boolean' ? c : c === 'true' ? true : false`. -/
def parseCompleted : DbBool → Bool
  | .bool b => b
  | .str s => s = "true"

/-- Row of the study_sessions table as the client sees it (the date is
carried as its yyyy-MM-dd day string, the granularity at which the client
stores and compares it). -/
structure DbSession where
  id : String
  user_id : String
  subject : String
  topic : String
  date : String
  startTime : String
  duration : String
  notes : Option String
  created_at : String
  progress : DbNum
  completed : DbBool
deriving DecidableEq, Repr

/-- StudySession in the component format of StudyPlanner.tsx. -/
structure StudySession where
  id : String
  user_id : String
  subject : String
  topic : String
  date : String
  startTime : String
  duration : String
  notes : String
  created_at : String
  progress : Nat
  completed : Bool
deriving DecidableEq, Repr

/-- Conversion of a fetched row to the component format, as written in
fetchStudySessions, onSubmit and handleUndoDelete of StudyPlanner.tsx
(`startTime || ""`, `notes || ""`, defensive progress/completed parse). -/
def formatSession (r : DbSession) : StudySession :=
  { id := r.id
    user_id := r.user_id
    subject := r.subject
    topic := r.topic
    date := r.date
    startTime := r.startTime
    duration := r.duration
    notes := r.notes.getD ""
    created_at := r.created_at
    progress := parseProgress r.progress
    completed := parseCompleted r.completed }

/-! ## StudyPlanner session mutations (src/src/components/StudyPlanner.tsx) -/

/-- Local-state update performed by updateSessionProgress: the session with
the given id receives the slider value and `completed = progress >= 100`. -/
def updateSessionProgressLocal (sessions : List StudySession) (sessionId : String)
    (progress : Nat) : List StudySession :=
  sessions.map fun session =>
    if session.id = sessionId then
      { session with progress := progress, completed := 100 ≤ progress }
    else session

/-- Database write performed by updateSessionProgress (stringified fields). -/
def updateSessionProgressDb (store : List DbSession) (sessionId : String)
    (progress : Nat) : List DbSession :=
  store.map fun r =>
    if r.id = sessionId then
      { r with progress := .str (Nat.digits 10 progress)
               completed := .str (jsBoolToString (100 ≤ progress)) }
    else r

/-- Local-state update performed by markSessionComplete: the session with
the given id receives progress 100 and completed true. -/
def markSessionCompleteLocal (sessions : List StudySession) (sessionId : String) :
    List StudySession :=
  sessions.map fun session =>
    if session.id = sessionId then
      { session with progress := 100, completed := true }
    else session

/-- Database write performed by markSessionComplete: the strings "100" and
"true" (digit list of 100 and the true string). -/
def markSessionCompleteDb (store : List DbSession) (sessionId : String) :
    List DbSession :=
  store.map fun r =>
    if r.id = sessionId then
      { r with progress := .str (Nat.digits 10 100)
               completed := .str "true" }
    else r

/-- Row inserted by handleUndoDelete from the saved copy of a deleted
session: every field value is taken from the copy (progress and completed
stringified as in the source), while the identity and creation timestamp
are assigned by the server. -/
def undoInsertRow (s : StudySession) (newId newCreatedAt : String) : DbSession :=
  { id := newId
    user_id := s.user_id
    subject := s.subject
    topic := s.topic
    date := s.date
    startTime := s.startTime
    duration := s.duration
    notes := some s.notes
    created_at := newCreatedAt
    progress := .str (Nat.digits 10 s.progress)
    completed := .str (jsBoolToString s.completed) }

/-- Restored component session built by handleUndoDelete from the row the
server returns for the insert (the server echoes the written fields and
fills in the new identity). -/
def handleUndoDelete (s : StudySession) (newId newCreatedAt : String) : StudySession :=
  formatSession (undoInsertRow s newId newCreatedAt)

/-- Local deletion performed by deleteSession after the store confirms. -/
def deleteSessionLocal (sessions : List StudySession) (id : String) :
    List StudySession :=
  sessions.filter fun session => session.id ≠ id

/-! ## Dashboard derived state (src/src/components/Dashboard.tsx) -/

/-- JavaScript `Math.round` on the non-negative rationals produced by the
dashboard aggregates: floor of x + 1/2. -/
def mathRound (q : ℚ) : ℤ :=
  ⌊q + 1 / 2⌋

/-- Rows of the store belonging to one user and subject, the set
updateSubjectProgress re-fetches
(`.eq('user_id', user.id).eq('subject', subject)`). -/
def sessionRowsFor (store : List DbSession) (userId subject : String) :
    List DbSession :=
  store.filter fun r => r.user_id = userId && r.subject = subject

/-- Contribution of one fetched row to `completedSessions` in
updateSubjectProgress: 1 when completed, otherwise progress/100 when the
parsed progress is positive, otherwise 0. -/
def rowContribution (r : DbSession) : ℚ :=
  if parseCompleted r.completed then 1
  else if 0 < parseProgress r.progress then (parseProgress r.progress : ℚ) / 100
  else 0

/-- Sum `completedSessions` accumulated by the forEach loop of
updateSubjectProgress. -/
def completedSessionsSum (rows : List DbSession) : ℚ :=
  (rows.map rowContribution).sum

/-- Aggregate percentage computed by updateSubjectProgress:
`Math.round(totalSessions > 0 ? (completedSessions / totalSessions) * 100 : 0)`. -/
def updateSubjectProgressCalc (store : List DbSession) (userId subject : String) : ℤ :=
  let rows := sessionRowsFor store userId subject
  let totalSessions := rows.length
  mathRound (if 0 < totalSessions then
      completedSessionsSum rows / (totalSessions : ℚ) * 100
    else 0)

/-- Modelled from the spec: the contribution of one session, "a completed
session contributes 1 and an incomplete session contributes progress/100". -/
def specContribution (r : DbSession) : ℚ :=
  if parseCompleted r.completed then 1 else (parseProgress r.progress : ℚ) / 100

/-- Modelled from the spec: per-subject aggregate
`round(100 * SUM(contribution) / count)`.  Stated over the same fetched
row set, for comparison with the code-side computation above. -/
def specSubjectAggregate (rows : List DbSession) : ℤ :=
  mathRound (100 * (rows.map specContribution).sum / (rows.length : ℚ))

/-- Subject-progress entry of the Dashboard state. -/
structure SubjectProgress where
  subject : String
  progress : ℤ
  totalSessions : Nat
  completedSessions : ℤ
deriving DecidableEq, Repr

/-- Upcoming-session entry of the Dashboard state (the fields of the
Dashboard's StudySession interface). -/
structure DashSession where
  id : String
  subject : String
  topic : String
  date : String
  startTime : String
  duration : String
  progress : Nat
  completed : Bool
deriving DecidableEq, Repr

/-- Dashboard view state touched by the broadcast handlers. -/
structure DashState where
  upcomingStudySessions : List DashSession
  studyProgress : List SubjectProgress
deriving DecidableEq, Repr

/-- State update applied by updateSubjectProgress after its re-fetch:
an existing entry for the subject is overwritten with the recomputed
values; otherwise the new entry is appended, the list sorted by descending
progress and cut to the top 3. -/
def applySubjectProgress (store : List DbSession) (userId subject : String)
    (prev : List SubjectProgress) : List SubjectProgress :=
  let rows := sessionRowsFor store userId subject
  let totalSessions := rows.length
  let progress := updateSubjectProgressCalc store userId subject
  let completedSessions := mathRound (completedSessionsSum rows)
  if (prev.find? fun p => p.subject = subject).isSome then
    prev.map fun p =>
      if p.subject = subject then
        { p with progress := progress, totalSessions := totalSessions
                 completedSessions := completedSessions }
      else p
  else
    (List.insertionSort (fun a b => b.progress ≤ a.progress)
      (prev ++ [{ subject := subject, progress := progress
                  totalSessions := totalSessions
                  completedSessions := completedSessions }])).take 3

/-- Payload of the session-completed broadcast event. -/
structure SessionCompletedPayload where
  sessionId : String
  subject : String
deriving DecidableEq, Repr

/-- Dashboard handler for the session-completed event: the session is
removed from the upcoming list first, then the subject aggregate is
recomputed from a full re-fetch of that subject's rows. -/
def handleSessionCompleted (store : List DbSession) (userId : String)
    (payload : SessionCompletedPayload) (st : DashState) : DashState :=
  let upcomingAfterRemoval :=
    st.upcomingStudySessions.filter fun session => session.id ≠ payload.sessionId
  { upcomingStudySessions := upcomingAfterRemoval
    studyProgress := applySubjectProgress store userId payload.subject st.studyProgress }

/-! ## DoubtSolver question submission (src/src/pages/DoubtSolver.tsx)

handleSubmitQuestion issues, in order: an insert of the doubt row, an
insert of the question as its first message, the AI call, and an insert of
the AI answer message; any failure jumps to the catch block, which inserts
the apology message into the doubt held by the component's `selectedDoubt`
binding.  That binding is the render-time value captured by the closure:
the `setSelectedDoubt(newDoubt)` call inside the flow does not change it,
so the embedding carries the captured value separately from the newly
created doubt.  Each fallible step's outcome is an input of the embedding
(the record store is an external collaborator). -/

/-- JavaScript String.trim on the ASCII whitespace of interest. -/
def jsTrim (s : String) : String :=
  ⟨((s.data.dropWhile jsIsSpace).reverse.dropWhile jsIsSpace).reverse⟩

/-- Outcome of one awaited fallible step (a record-store call or the AI
proxy call). -/
inductive StepResult (α : Type) where
  | ok (value : α)
  | err (message : String)
deriving DecidableEq, Repr

/-- Row of the doubts table. -/
structure DoubtRow where
  id : String
  user_id : String
  question : String
  subject : String
  solved : Bool
  timestamp : Nat
deriving DecidableEq, Repr

/-- Row of the doubt_messages table. -/
structure MessageRow where
  id : String
  doubt_id : String
  content : String
  sender : String
  timestamp : Nat
deriving DecidableEq, Repr

/-- Persisted doubt-solver state. -/
structure DoubtStore where
  doubts : List DoubtRow
  messages : List MessageRow
deriving DecidableEq, Repr

/-- Apology text inserted by the catch blocks of DoubtSolver.tsx (source
literal shortened: the ASCII apostrophe of its first word is elided from
this embedding). -/
def apologyText : String :=
  "Im sorry, I encountered an error while processing your question. Please try again or rephrase your question."

/-- Environment of one handleSubmitQuestion invocation: the render-time
captured values and the outcome of each fallible step.  Server-assigned
identity and timestamp accompany each successful insert. -/
structure SubmitEnv where
  userId : String
  newQuestion : String
  selectedDoubtId : Option String
  doubtInsert : StepResult (String × Nat)
  msgInsert : StepResult (String × Nat)
  aiCall : StepResult String
  aiMsgInsert : StepResult (String × Nat)
  apologyInsert : StepResult (String × Nat)

/-- Catch block of handleSubmitQuestion: when a doubt was selected in the
render that created the handler, the apology message is inserted into that
doubt's thread; otherwise nothing is inserted. -/
def submitCatch (env : SubmitEnv) (st : DoubtStore) : DoubtStore :=
  match env.selectedDoubtId with
  | none => st
  | some selId =>
    match env.apologyInsert with
    | .err _ => st
    | .ok (eid, ets) =>
      { st with messages :=
          st.messages ++ [{ id := eid, doubt_id := selId, content := apologyText
                            sender := "ai", timestamp := ets }] }

/-- Store effect of handleSubmitQuestion.  The doubt row is inserted with
subject "General" and server-defaulted solved = false; the first message
carries the question with sender "user"; on AI success the answer is
inserted with sender "ai"; on any failure the catch block runs on the
state persisted so far. -/
def handleSubmitQuestion (env : SubmitEnv) (store : DoubtStore) : DoubtStore :=
  if jsTrim env.newQuestion = "" then store
  else
    match env.doubtInsert with
    | .err _ => submitCatch env store
    | .ok (did, dts) =>
      let store1 : DoubtStore :=
        { store with doubts :=
            store.doubts ++ [{ id := did, user_id := env.userId
                               question := env.newQuestion, subject := "General"
                               solved := false, timestamp := dts }] }
      match env.msgInsert with
      | .err _ => submitCatch env store1
      | .ok (mid, mts) =>
        let store2 : DoubtStore :=
          { store1 with messages :=
              store1.messages ++ [{ id := mid, doubt_id := did
                                    content := env.newQuestion, sender := "user"
                                    timestamp := mts }] }
        match env.aiCall with
        | .err _ => submitCatch env store2
        | .ok answer =>
          match env.aiMsgInsert with
          | .err _ => submitCatch env store2
          | .ok (aid, ats) =>
            { store2 with messages :=
                store2.messages ++ [{ id := aid, doubt_id := did
                                      content := answer, sender := "ai"
                                      timestamp := ats }] }

/-- Messages persisted for one doubt. -/
def messagesFor (st : DoubtStore) (doubtId : String) : List MessageRow :=
  st.messages.filter fun m => m.doubt_id = doubtId

/-- Message sequence the client holds for a doubt after fetchDoubts, which
reads the doubt's messages ordered by timestamp ascending
(`.order('timestamp', { ascending: true })`). -/
def orderedMessagesFor (st : DoubtStore) (doubtId : String) : List MessageRow :=
  List.insertionSort (fun a b => a.timestamp ≤ b.timestamp) (messagesFor st doubtId)

instance : IsTotal MessageRow (fun a b => a.timestamp ≤ b.timestamp) :=
  ⟨fun a b => Nat.le_total a.timestamp b.timestamp⟩

instance : IsTrans MessageRow (fun a b => a.timestamp ≤ b.timestamp) :=
  ⟨fun _ _ _ hab hbc => Nat.le_trans hab hbc⟩

/-! ## Flashcard decks (src/src/components/FlashcardGenerator.tsx and
src/src/components/flashcard/FlashcardDetail.tsx) -/

/-- Flashcard in the app format. -/
structure Flashcard where
  id : String
  front : String
  back : String
  subject : String
deriving DecidableEq, Repr

/-- Flashcard deck in the app format; totalCards is a client-side field,
there is no corresponding table column. -/
structure FlashcardDeck where
  id : String
  name : String
  subject : String
  totalCards : Nat
  flashcards : List Flashcard
deriving DecidableEq, Repr

/-- Deck built by handleCreateDeck from the inserted row: zero cards. -/
def newDeckFromCreate (id name subject : String) : FlashcardDeck :=
  { id := id, name := name, subject := subject, totalCards := 0, flashcards := [] }

/-- Deck built by fetchDecks for one deck row: totalCards is the length of
the fetched card list (`flashcardsData?.length || 0`). -/
def fetchedDeck (id name subject : String) (cards : List Flashcard) : FlashcardDeck :=
  { id := id, name := name, subject := subject
    totalCards := cards.length, flashcards := cards }

/-- Deck update performed by handleAddGeneratedFlashcards: the generated
front/back pairs are inserted, the server returns them with identities,
and the deck gains them with totalCards incremented by their number.  The
guard returns the deck unchanged when the generated list is empty.  The
server-assigned identities arrive zipped with the pairs. -/
def addGeneratedFlashcards (deck : FlashcardDeck)
    (generated : List (String × String)) (newIds : List String) : FlashcardDeck :=
  if generated.isEmpty then deck
  else
    let newFlashcards := (generated.zip newIds).map fun p =>
      { id := p.2, front := p.1.1, back := p.1.2, subject := deck.subject }
    { deck with totalCards := deck.totalCards + newFlashcards.length
                flashcards := deck.flashcards ++ newFlashcards }

/-- Deck update performed by handleCreateFlashcard of FlashcardDetail:
one card appended and totalCards incremented, guarded on non-blank texts. -/
def createFlashcardInDeck (deck : FlashcardDeck) (cardId front back : String) :
    FlashcardDeck :=
  if jsTrim front = "" || jsTrim back = "" then deck
  else
    { deck with totalCards := deck.totalCards + 1
                flashcards := deck.flashcards ++
                  [{ id := cardId, front := front, back := back
                     subject := deck.subject }] }

/-- Deck update performed by handleDeleteFlashcard of FlashcardDetail:
the card is filtered out and totalCards set to the filtered length. -/
def deleteFlashcardFromDeck (deck : FlashcardDeck) (cardId : String) :
    FlashcardDeck :=
  let updatedFlashcards := deck.flashcards.filter fun card => card.id ≠ cardId
  { deck with totalCards := updatedFlashcards.length
              flashcards := updatedFlashcards }

/-- Deck update performed by handleSaveEdit of FlashcardDetail: the edited
card's texts are replaced in place, totalCards untouched; guarded on a
selected card and non-blank texts. -/
def saveEditInDeck (deck : FlashcardDeck) (editCardId : Option String)
    (front back : String) : FlashcardDeck :=
  match editCardId with
  | none => deck
  | some cardId =>
    if jsTrim front = "" || jsTrim back = "" then deck
    else
      { deck with flashcards := deck.flashcards.map fun card =>
          if card.id = cardId then { card with front := front, back := back }
          else card }

/-- Derived-count invariant of the spec: totalCards agrees with the owned
collection's size. -/
def deckCountInvariant (deck : FlashcardDeck) : Prop :=
  deck.totalCards = deck.flashcards.length

/-! ## Flashcard generation proxy fallback
(src/supabase/functions/generate-flashcards/index.ts)

When parsing the model response as a structured array fails, the handler
splits the text on the case-insensitive delimiter `Flashcard \d+:`, drops
empty pieces, splits each remaining section on `Front:` or `Back:`
(case-insensitive), drops empty parts, and collects a card from every
section with at least two parts; only when that also yields zero cards
does it answer with the error payload. -/

/-- Match of the delimiter regex `Flashcard \d+:` (case-insensitive) at
the start of `s`; returns the length consumed. -/
def matchFlashcardDelim (s : List Char) : Option Nat :=
  if ciPrefixOf ['f', 'l', 'a', 's', 'h', 'c', 'a', 'r', 'd', ' '] s then
    let t := s.drop 10
    let ds := t.takeWhile Char.isDigit
    if ds.isEmpty then none
    else
      match t.drop ds.length with
      | ':' :: _ => some (10 + ds.length + 1)
      | _ => none
  else none

/-- Match of the delimiter regex `Front:|Back:` (case-insensitive) at the
start of `s`; returns the length consumed. -/
def matchFrontBackDelim (s : List Char) : Option Nat :=
  if ciPrefixOf ['f', 'r', 'o', 'n', 't', ':'] s then some 6
  else if ciPrefixOf ['b', 'a', 'c', 'k', ':'] s then some 5
  else none

/-- Positivity of the consumed length, needed for the splitter below to
recurse. -/
def delimConsumesPos (f : List Char → Option Nat) : Prop :=
  ∀ s n, f s = some n → 0 < n

/-- JavaScript String.split against a delimiter regex: the pieces between
consecutive leftmost delimiter occurrences (the `acc` argument accumulates
the current piece reversed).  The recursion is fuelled so that it reduces
by computation; every step consumes at least one character of `s` (the
delimiters below consume a positive length, see matchFlashcardDelim_pos
and matchFrontBackDelim_pos in the results section), so the fuel
`s.length + 1` supplied by `splitJs` is never exhausted. -/
def splitWithFuel (f : List Char → Option Nat) :
    Nat → List Char → List Char → List (List Char)
  | 0, acc, s => [acc.reverse ++ s]
  | _ + 1, acc, [] => [acc.reverse]
  | fuel + 1, acc, c :: cs =>
    match f (c :: cs) with
    | some n => acc.reverse :: splitWithFuel f fuel [] ((c :: cs).drop n)
    | none => splitWithFuel f fuel (c :: acc) cs

/-- JavaScript String.split of `s` on the delimiter matcher `f`. -/
def splitJs (f : List Char → Option Nat) (s : List Char) : List (List Char) :=
  splitWithFuel f (s.length + 1) [] s

/-- JavaScript String.trim on a character list. -/
def jsTrimChars (l : List Char) : List Char :=
  ((l.dropWhile jsIsSpace).reverse.dropWhile jsIsSpace).reverse

/-- Sections of the generated text:
`generatedText.split(/Flashcard \d+:/gi).filter(Boolean)`. -/
def flashcardSections (generatedText : List Char) : List (List Char) :=
  (splitJs matchFlashcardDelim generatedText).filter fun piece => ¬piece.isEmpty

/-- Parts of one section: `section.split(/Front:|Back:/gi).filter(Boolean)`. -/
def frontBackParts (sectionText : List Char) : List (List Char) :=
  (splitJs matchFrontBackDelim sectionText).filter fun piece => ¬piece.isEmpty

/-- Flashcard content assembled by the fallback loop. -/
structure GenFlashcard where
  front : List Char
  back : List Char
deriving DecidableEq, Repr

/-- Fallback extraction loop: a card from every section with at least two
parts, with the first two parts trimmed as front and back. -/
def fallbackExtract (generatedText : List Char) : List GenFlashcard :=
  (flashcardSections generatedText).filterMap fun sec =>
    match frontBackParts sec with
    | p0 :: p1 :: _ => some { front := jsTrimChars p0, back := jsTrimChars p1 }
    | _ => none

/-- Response bodies the handler can answer with after the upstream call
succeeded: a flashcards list or the explicit error payload. -/
inductive GenResponse where
  | cards (cs : List GenFlashcard)
  | errorPayload (message : String) (rawResponse : List Char)
deriving DecidableEq, Repr

/-- Response assembly from the generated text.  The structured
JSON-array parsing step (JSON.parse of the bracketed substring plus the
front/back shape validation) is abstracted by its outcome
`structuredParse`, since the properties of interest condition on that step
failing; the fallback path and the error decision are embedded in full. -/
def respondFromGeneratedText (structuredParse : Option (List GenFlashcard))
    (generatedText : List Char) : GenResponse :=
  match structuredParse with
  | some flashcards => .cards flashcards
  | none =>
    let flashcards := fallbackExtract generatedText
    if flashcards.isEmpty then
      .errorPayload "Failed to parse flashcards from AI response" generatedText
    else .cards flashcards

/-! ## Saved-PDF download filename (src/pages/SavedPDFs.tsx)

handleDownloadPDF names the offered file
`` pdf.title.replace(/[^a-z0-9]/gi, '_').toLowerCase() + ".pdf" ``:
every character outside the ASCII alphanumerics is replaced by an
underscore, then the result is lower-cased. -/

/-- Character class `[a-z0-9]` with the i flag: the ASCII alphanumerics.
Character-range comparison is on the Unicode scalar value, written here
through toNat (97..122 is a..z, 65..90 is A..Z, 48..57 is 0..9). -/
def isAsciiAlnum (c : Char) : Bool :=
  (97 ≤ c.toNat && c.toNat ≤ 122) || (65 ≤ c.toNat && c.toNat ≤ 90) ||
    (48 ≤ c.toNat && c.toNat ≤ 57)

/-- Global replacement `[^a-z0-9]/gi` to underscore, one character. -/
def sanitizeTitleChar (c : Char) : Char :=
  if isAsciiAlnum c then c else '_'

/-- JavaScript toLowerCase on the characters the sanitized title can
contain (ASCII): upper-case letters shift down by 32 scalar values. -/
def jsToLowerChar (c : Char) : Char :=
  if 65 ≤ c.toNat && c.toNat ≤ 90 then Char.ofNat (c.toNat + 32) else c

/-- Predicate of the specification sentence under scrutiny: the character
is a lower-case ASCII letter or a decimal digit. -/
def charIsLowerOrDigit (c : Char) : Bool :=
  (97 ≤ c.toNat && c.toNat ≤ 122) || (48 ≤ c.toNat && c.toNat ≤ 57)

/-- Name part of the offered download filename. -/
def downloadBaseName (title : List Char) : List Char :=
  (title.map sanitizeTitleChar).map jsToLowerChar

/-- Full offered download filename: sanitized name plus the fixed
extension. -/
def downloadFileName (title : List Char) : List Char :=
  downloadBaseName title ++ ['.', 'p', 'd', 'f']

example :
    fallbackExtract "Flashcard 1: Front: Q1 Back: A1 Flashcard 2: Front: Q2 Back: A2".data =
      [{ front := [], back := "Q1".data },
       { front := [], back := "Q2".data }] := by decide
example :
    fallbackExtract "Flashcard 1:Front: Q1 Back: A1".data =
      [{ front := "Q1".data, back := "A1".data }] := by decide
example : fallbackExtract "no cards here".data = [] := by decide
example : downloadBaseName "My Notes".data = "my_notes".data := by decide
example : downloadFileName "Calc 2!".data = "calc_2_.pdf".data := by decide

/-! ## Results

Shared auxiliary lemmas, then one theorem per examined property, each with
its concrete witness or counterexample. -/

theorem matchFlashcardDelim_pos : delimConsumesPos matchFlashcardDelim := by
  intro s n h
  unfold matchFlashcardDelim at h
  dsimp only at h
  split at h
  · split at h
    · exact absurd h (Option.noConfusion)
    · split at h
      · simp only [Option.some.injEq] at h
        omega
      · exact absurd h (Option.noConfusion)
  · exact absurd h (Option.noConfusion)

theorem matchFrontBackDelim_pos : delimConsumesPos matchFrontBackDelim := by
  intro s n h
  unfold matchFrontBackDelim at h
  split at h
  · simp only [Option.some.injEq] at h
    omega
  · split at h
    · simp only [Option.some.injEq] at h
      omega
    · exact absurd h (Option.noConfusion)

theorem parseProgress_encode (n : Nat) :
    parseProgress (DbNum.str (Nat.digits 10 n)) = n := by
  by_cases h : Nat.digits 10 n = []
  · have h0 : n = 0 := (Nat.digits_eq_nil_iff_eq_zero).mp h
    subst h0
    simp [parseProgress]
  · simp [parseProgress, List.isEmpty_iff, h, Nat.ofDigits_digits]

theorem parseCompleted_encode (b : Bool) :
    parseCompleted (DbBool.str (jsBoolToString b)) = b := by
  cases b <;> decide

theorem rowContribution_eq_specContribution (r : DbSession) :
    rowContribution r = specContribution r := by
  unfold rowContribution specContribution
  cases hc : parseCompleted r.completed
  · simp only [Bool.false_eq_true, if_false]
    rcases Nat.eq_zero_or_pos (parseProgress r.progress) with h0 | hpos
    · simp [h0]
    · simp [hpos]
  · simp

/-- C10: the duration parser extractMinutes is total and positive, returns
the default 60 on every string matched by none of the three patterns, and
returns 330 minutes on "1.5 hours" (the digit-only hours match contributes
5 * 60 and the half-hour match adds 30), not 90. -/
theorem c10_extract_minutes_default_positive_example :
    (∀ duration : List Char,
        findNumWord ['h', 'o', 'u', 'r'] duration = none →
        findNumWord ['m', 'i', 'n', 'u', 't', 'e'] duration = none →
        findHalfWord ['h', 'o', 'u', 'r'] duration = false →
        extractMinutes duration = 60) ∧
    extractMinutes "1.5 hours".data = 330 ∧
    (∀ duration : List Char, 0 < extractMinutes duration) := by
  refine ⟨?_, by decide, ?_⟩
  · intro d h1 h2 h3
    simp [extractMinutes, h1, h2, h3]
  · intro d
    simp only [extractMinutes]
    repeat' split
    all_goals omega

/-- Witness for C10: the three matchers all fail on "soon", and the
default and positivity conclusions are realised there. -/
theorem c10_witness :
    extractMinutes "soon".data = 60 ∧ 0 < extractMinutes "1.5 hours".data :=
  ⟨c10_extract_minutes_default_positive_example.1 "soon".data
      (by decide) (by decide) (by decide),
    c10_extract_minutes_default_positive_example.2.2 "1.5 hours".data⟩

/-- C1: for every subject with at least one session, the Dashboard's
updateSubjectProgress recomputation over the full fetched session set of
that subject equals the specified
`round(100 * SUM(contribution) / count)` with contribution 1 for a
completed session and progress/100 otherwise; on the two-session example
store below (progress 50 incomplete and progress 100 complete under one
subject) the aggregate is 75. -/
theorem c1_subject_progress_aggregate_matches_spec :
    (∀ (store : List DbSession) (userId subject : String),
        sessionRowsFor store userId subject ≠ [] →
        updateSubjectProgressCalc store userId subject =
          specSubjectAggregate (sessionRowsFor store userId subject)) ∧
    updateSubjectProgressCalc
      [{ id := "A", user_id := "u", subject := "Math", topic := "t1"
         date := "2025-05-01", startTime := "09:00", duration := "1 hour"
         notes := none, created_at := "c1", progress := .num 50
         completed := .bool false },
       { id := "B", user_id := "u", subject := "Math", topic := "t2"
         date := "2025-05-02", startTime := "10:00", duration := "1 hour"
         notes := none, created_at := "c2", progress := .num 100
         completed := .bool true }] "u" "Math" = 75 := by
  constructor
  · intro store userId subject hne
    unfold updateSubjectProgressCalc specSubjectAggregate
    dsimp only
    rw [if_pos (List.length_pos.mpr hne)]
    congr 1
    have hmap : (sessionRowsFor store userId subject).map rowContribution =
        (sessionRowsFor store userId subject).map specContribution :=
      List.map_congr_left fun r _ => rowContribution_eq_specContribution r
    rw [completedSessionsSum, hmap]
    ring
  · norm_num [updateSubjectProgressCalc, sessionRowsFor, completedSessionsSum,
      List.filter, rowContribution, parseProgress, parseCompleted, mathRound,
      Int.floor_eq_iff]

/-- Witness for C1: the general equality applied to the example store,
whose Math row set is non-empty. -/
theorem c1_witness :
    updateSubjectProgressCalc
      [{ id := "A", user_id := "u", subject := "Math", topic := "t1"
         date := "2025-05-01", startTime := "09:00", duration := "1 hour"
         notes := none, created_at := "c1", progress := .num 50
         completed := .bool false }] "u" "Math" =
      specSubjectAggregate
        (sessionRowsFor
          [{ id := "A", user_id := "u", subject := "Math", topic := "t1"
             date := "2025-05-01", startTime := "09:00", duration := "1 hour"
             notes := none, created_at := "c1", progress := .num 50
             completed := .bool false }] "u" "Math") :=
  c1_subject_progress_aggregate_matches_spec.1 _ "u" "Math" (by decide)

/-- C2: after markSessionComplete, the mutated session has progress 100
and completed true, both in the local component state and as parsed back
from the written row; and the Dashboard's session-completed handler
removes that session from the upcoming list (the removal is applied to the
state before the aggregate update, per the definition of
handleSessionCompleted) and recomputes the subject aggregate from the full
store row set for that subject. -/
theorem c2_mark_session_complete_and_dashboard :
    (∀ (sessions : List StudySession) (sessionId : String) (s : StudySession),
        s ∈ markSessionCompleteLocal sessions sessionId → s.id = sessionId →
        s.progress = 100 ∧ s.completed = true) ∧
    (∀ (store : List DbSession) (sessionId : String) (r : DbSession),
        r ∈ markSessionCompleteDb store sessionId → r.id = sessionId →
        parseProgress r.progress = 100 ∧ parseCompleted r.completed = true) ∧
    (∀ (store : List DbSession) (userId : String)
        (payload : SessionCompletedPayload) (st : DashState),
        (∀ u ∈ (handleSessionCompleted store userId payload st).upcomingStudySessions,
            u.id ≠ payload.sessionId) ∧
        (∀ e ∈ (handleSessionCompleted store userId payload st).studyProgress,
            e.subject = payload.subject →
            e.progress = updateSubjectProgressCalc store userId payload.subject)) := by
  refine ⟨?_, ?_, ?_⟩
  · intro sessions sessionId s hmem hid
    unfold markSessionCompleteLocal at hmem
    rcases List.mem_map.mp hmem with ⟨orig, -, rfl⟩
    by_cases h : orig.id = sessionId
    · simp [h]
    · simp only [if_neg h] at hid ⊢
      exact absurd hid h
  · intro store sessionId r hmem hid
    unfold markSessionCompleteDb at hmem
    rcases List.mem_map.mp hmem with ⟨orig, -, rfl⟩
    by_cases h : orig.id = sessionId
    · simp only [if_pos h]
      exact ⟨parseProgress_encode 100, by decide⟩
    · simp only [if_neg h] at hid ⊢
      exact absurd hid h
  · intro store userId payload st
    constructor
    · intro u hu
      unfold handleSessionCompleted at hu
      dsimp only at hu
      simpa using List.of_mem_filter hu
    · intro e he hsubj
      unfold handleSessionCompleted applySubjectProgress at he
      dsimp only at he
      split at he
      · rcases List.mem_map.mp he with ⟨p, -, rfl⟩
        by_cases h : p.subject = payload.subject
        · simp [h]
        · simp only [if_neg h] at hsubj ⊢
          exact absurd hsubj h
      · rename_i hfind
        have hmem : e ∈ st.studyProgress ++
            [{ subject := payload.subject
               progress := updateSubjectProgressCalc store userId payload.subject
               totalSessions := (sessionRowsFor store userId payload.subject).length
               completedSessions :=
                 mathRound (completedSessionsSum
                   (sessionRowsFor store userId payload.subject)) }] :=
          (List.perm_insertionSort _ _).subset (List.take_subset _ _ he)
        rcases List.mem_append.mp hmem with hprev | hnew
        · exfalso
          apply hfind
          rw [List.find?_isSome]
          exact ⟨e, hprev, by simpa using hsubj⟩
        · rcases List.mem_singleton.mp hnew with rfl
          rfl

/-- Witness for C2: the mark-complete conclusions realised on a concrete
one-session list and its written row. -/
theorem c2_witness :
    (({ id := "s1", user_id := "u", subject := "Math", topic := "t"
        date := "2025-05-01", startTime := "09:00", duration := "1 hour"
        notes := "", created_at := "c", progress := 100
        completed := true } : StudySession).progress = 100 ∧
      ({ id := "s1", user_id := "u", subject := "Math", topic := "t"
         date := "2025-05-01", startTime := "09:00", duration := "1 hour"
         notes := "", created_at := "c", progress := 100
         completed := true } : StudySession).completed = true) ∧
    (parseProgress (DbNum.str (Nat.digits 10 100)) = 100 ∧
      parseCompleted (DbBool.str "true") = true) :=
  ⟨c2_mark_session_complete_and_dashboard.1
      [{ id := "s1", user_id := "u", subject := "Math", topic := "t"
         date := "2025-05-01", startTime := "09:00", duration := "1 hour"
         notes := "", created_at := "c", progress := 40, completed := false }]
      "s1"
      { id := "s1", user_id := "u", subject := "Math", topic := "t"
        date := "2025-05-01", startTime := "09:00", duration := "1 hour"
        notes := "", created_at := "c", progress := 100, completed := true }
      (by decide) (by decide),
    c2_mark_session_complete_and_dashboard.2.1
      [{ id := "s1", user_id := "u", subject := "Math", topic := "t"
         date := "2025-05-01", startTime := "09:00", duration := "1 hour"
         notes := none, created_at := "c", progress := .num 40
         completed := .bool false }]
      "s1"
      { id := "s1", user_id := "u", subject := "Math", topic := "t"
        date := "2025-05-01", startTime := "09:00", duration := "1 hour"
        notes := none, created_at := "c"
        progress := DbNum.str (Nat.digits 10 100)
        completed := DbBool.str "true" }
      (List.mem_singleton.mpr rfl) (by decide)⟩

/-- C3: re-inserting the saved copy of a deleted session through
handleUndoDelete yields a session whose subject, topic, date, startTime,
duration, notes, progress and completed equal those of the deleted
session, while its identity is the fresh server-assigned one, distinct
from the deleted identity. -/
theorem c3_undo_restores_field_values_new_identity :
    ∀ (s : StudySession) (newId newCreatedAt : String), newId ≠ s.id →
      (handleUndoDelete s newId newCreatedAt).subject = s.subject ∧
      (handleUndoDelete s newId newCreatedAt).topic = s.topic ∧
      (handleUndoDelete s newId newCreatedAt).date = s.date ∧
      (handleUndoDelete s newId newCreatedAt).startTime = s.startTime ∧
      (handleUndoDelete s newId newCreatedAt).duration = s.duration ∧
      (handleUndoDelete s newId newCreatedAt).notes = s.notes ∧
      (handleUndoDelete s newId newCreatedAt).progress = s.progress ∧
      (handleUndoDelete s newId newCreatedAt).completed = s.completed ∧
      (handleUndoDelete s newId newCreatedAt).id = newId ∧
      (handleUndoDelete s newId newCreatedAt).id ≠ s.id := by
  intro s newId newCreatedAt hne
  unfold handleUndoDelete undoInsertRow formatSession
  exact ⟨rfl, rfl, rfl, rfl, rfl, rfl, parseProgress_encode s.progress,
    parseCompleted_encode s.completed, rfl, hne⟩

/-- Witness for C3: the round trip realised on one concrete session with a
fresh identity. -/
theorem c3_witness :
    (handleUndoDelete
      { id := "old", user_id := "u", subject := "Math", topic := "t"
        date := "2025-05-01", startTime := "09:00", duration := "1.5 hours"
        notes := "focus", created_at := "c", progress := 35
        completed := false } "fresh" "c2").progress = 35 ∧
    (handleUndoDelete
      { id := "old", user_id := "u", subject := "Math", topic := "t"
        date := "2025-05-01", startTime := "09:00", duration := "1.5 hours"
        notes := "focus", created_at := "c", progress := 35
        completed := false } "fresh" "c2").id ≠ "old" := by
  have h := c3_undo_restores_field_values_new_identity
    { id := "old", user_id := "u", subject := "Math", topic := "t"
      date := "2025-05-01", startTime := "09:00", duration := "1.5 hours"
      notes := "focus", created_at := "c", progress := 35
      completed := false } "fresh" "c2" (by decide)
  exact ⟨h.2.2.2.2.2.2.1, h.2.2.2.2.2.2.2.2.2⟩

/-- C4 counterexample: contrary to the claimed first code path, neither
updateSessionProgress nor markSessionComplete can leave the mutated
session with progress 100 and completed false — updateSessionProgress
derives completed as progress >= 100 and markSessionComplete writes the
pair (100, true). -/
theorem c4_counterexample_progress100_forces_completed :
    ¬ ∃ (sessions : List StudySession) (sessionId : String) (p : Nat)
        (s : StudySession),
        (s ∈ updateSessionProgressLocal sessions sessionId p ∨
          s ∈ markSessionCompleteLocal sessions sessionId) ∧
        s.id = sessionId ∧ s.progress = 100 ∧ s.completed = false := by
  rintro ⟨sessions, sessionId, p, s, hmem | hmem, hid, hprog, hcomp⟩
  · unfold updateSessionProgressLocal at hmem
    rcases List.mem_map.mp hmem with ⟨orig, -, rfl⟩
    by_cases h : orig.id = sessionId
    · simp only [if_pos h] at hprog hcomp
      simp only [decide_eq_false_iff_not, not_le] at hcomp
      omega
    · simp only [if_neg h] at hid
      exact h hid
  · unfold markSessionCompleteLocal at hmem
    rcases List.mem_map.mp hmem with ⟨orig, -, rfl⟩
    by_cases h : orig.id = sessionId
    · simp only [if_pos h] at hcomp
      exact Bool.noConfusion hcomp
    · simp only [if_neg h] at hid
      exact h hid

/-- C4 amended: on the mutated session both operations maintain
completed = (progress >= 100); in particular setting progress to 100
always sets completed, so the invariant completed == (progress == 100) is
violable only in the other direction, by updateSessionProgress with a
progress argument above 100 (completed true while progress differs from
100). -/
theorem c4_amended_completed_tracks_threshold :
    (∀ (sessions : List StudySession) (sessionId : String) (p : Nat)
        (s : StudySession), s ∈ updateSessionProgressLocal sessions sessionId p →
        s.id = sessionId → (s.completed = true ↔ 100 ≤ s.progress)) ∧
    (∀ (sessions : List StudySession) (sessionId : String) (s : StudySession),
        s ∈ markSessionCompleteLocal sessions sessionId → s.id = sessionId →
        s.progress = 100 ∧ s.completed = true) ∧
    (∃ (sessions : List StudySession) (sessionId : String) (p : Nat)
        (s : StudySession), s ∈ updateSessionProgressLocal sessions sessionId p ∧
        s.id = sessionId ∧ s.completed = true ∧ s.progress ≠ 100) := by
  refine ⟨?_, ?_, ?_⟩
  · intro sessions sessionId p s hmem hid
    unfold updateSessionProgressLocal at hmem
    rcases List.mem_map.mp hmem with ⟨orig, -, rfl⟩
    by_cases h : orig.id = sessionId
    · simp [h]
    · simp only [if_neg h] at hid
      exact absurd hid h
  · intro sessions sessionId s hmem hid
    unfold markSessionCompleteLocal at hmem
    rcases List.mem_map.mp hmem with ⟨orig, -, rfl⟩
    by_cases h : orig.id = sessionId
    · simp [h]
    · simp only [if_neg h] at hid
      exact absurd hid h
  · refine ⟨[{ id := "s1", user_id := "u", subject := "Math", topic := "t"
               date := "2025-05-01", startTime := "09:00", duration := "1 hour"
               notes := "", created_at := "c", progress := 40
               completed := false }], "s1", 105,
      { id := "s1", user_id := "u", subject := "Math", topic := "t"
        date := "2025-05-01", startTime := "09:00", duration := "1 hour"
        notes := "", created_at := "c", progress := 105
        completed := true }, by decide, by decide, by decide, by decide⟩

/-- Witness for C4 amended: the biconditional realised on a concrete
update to progress 100. -/
theorem c4_witness :
    ({ id := "s1", user_id := "u", subject := "Math", topic := "t"
       date := "2025-05-01", startTime := "09:00", duration := "1 hour"
       notes := "", created_at := "c", progress := 100
       completed := true } : StudySession).completed = true ↔
      100 ≤ ({ id := "s1", user_id := "u", subject := "Math", topic := "t"
               date := "2025-05-01", startTime := "09:00", duration := "1 hour"
               notes := "", created_at := "c", progress := 100
               completed := true } : StudySession).progress :=
  c4_amended_completed_tracks_threshold.1
    [{ id := "s1", user_id := "u", subject := "Math", topic := "t"
       date := "2025-05-01", startTime := "09:00", duration := "1 hour"
       notes := "", created_at := "c", progress := 40, completed := false }]
    "s1" 100
    { id := "s1", user_id := "u", subject := "Math", topic := "t"
      date := "2025-05-01", startTime := "09:00", duration := "1 hour"
      notes := "", created_at := "c", progress := 100, completed := true }
    (by decide) (by decide)

/-- C5: when structured parsing of the model response fails, a text with
at least one recognised section (a piece of the Flashcard-number split
whose Front/Back split keeps two or more non-empty parts) makes the
handler answer with the non-empty fallback card list; a text yielding no
fallback card makes it answer the explicit error payload; and an error
payload is produced only when structured parsing failed and the fallback
yielded zero cards. -/
theorem c5_fallback_extraction_and_error :
    (∀ generatedText : List Char,
        (∃ sec ∈ flashcardSections generatedText,
            2 ≤ (frontBackParts sec).length) →
        fallbackExtract generatedText ≠ [] ∧
        respondFromGeneratedText none generatedText =
          .cards (fallbackExtract generatedText)) ∧
    (∀ generatedText : List Char, fallbackExtract generatedText = [] →
        respondFromGeneratedText none generatedText =
          .errorPayload "Failed to parse flashcards from AI response"
            generatedText) ∧
    (∀ (structuredParse : Option (List GenFlashcard)) (generatedText : List Char)
        (msg : String) (raw : List Char),
        respondFromGeneratedText structuredParse generatedText =
          .errorPayload msg raw →
        structuredParse = none ∧ fallbackExtract generatedText = []) := by
  have hne : ∀ text : List Char,
      (∃ sec ∈ flashcardSections text, 2 ≤ (frontBackParts sec).length) →
      fallbackExtract text ≠ [] := by
    intro text hex hnil
    rcases hex with ⟨sec, hsec, hlen⟩
    unfold fallbackExtract at hnil
    have hnone := List.filterMap_eq_nil_iff.mp hnil sec hsec
    rcases hp : frontBackParts sec with - | ⟨p0, - | ⟨p1, rest⟩⟩
    · rw [hp] at hlen
      simp at hlen
    · rw [hp] at hlen
      simp at hlen
    · rw [hp] at hnone
      simp at hnone
  refine ⟨?_, ?_, ?_⟩
  · intro text hex
    have h := hne text hex
    refine ⟨h, ?_⟩
    unfold respondFromGeneratedText
    dsimp only
    rw [if_neg (by simpa [List.isEmpty_iff] using h)]
  · intro text h
    unfold respondFromGeneratedText
    dsimp only
    rw [if_pos (by simpa [List.isEmpty_iff] using h)]
  · intro structuredParse text msg raw heq
    cases structuredParse with
    | some cards =>
      exact absurd heq (by simp [respondFromGeneratedText])
    | none =>
      unfold respondFromGeneratedText at heq
      dsimp only at heq
      by_cases h : (fallbackExtract text).isEmpty
      · rw [if_pos h] at heq
        exact ⟨rfl, List.isEmpty_iff.mp h⟩
      · rw [if_neg h] at heq
        exact absurd heq (by simp)

/-- Witness for C5: on a concrete response text with one recognised
section, structured parsing having failed, the handler answers the
(non-empty) fallback list; the section-existence hypothesis is discharged
by evaluation. -/
theorem c5_witness :
    fallbackExtract "Flashcard 1: Front: Q Back: A".data ≠ [] ∧
    respondFromGeneratedText none "Flashcard 1: Front: Q Back: A".data =
      .cards (fallbackExtract "Flashcard 1: Front: Q Back: A".data) :=
  c5_fallback_extraction_and_error.1 "Flashcard 1: Front: Q Back: A".data
    ⟨" Front: Q Back: A".data, by decide, by decide⟩

/-- C6: evaluation of handleSubmitQuestion at the failing input — first
question ever (no doubt selected in the creating render), the doubt and
first-message inserts succeed, the AI call fails.  The doubt and its first
message persist, but no apology message is inserted anywhere: the catch
block reads the stale render-time selectedDoubt binding, which is still
null, not the newly created doubt.  With a stale selected doubt "d0"
instead, the apology lands in the thread of "d0", again not in the new
doubt's thread. -/
theorem c6_ai_failure_apology_misses_new_doubt :
    handleSubmitQuestion
      { userId := "u", newQuestion := "Why is the sky blue?"
        selectedDoubtId := none
        doubtInsert := .ok ("d1", 1), msgInsert := .ok ("m1", 2)
        aiCall := .err "proxy failure"
        aiMsgInsert := .err "unreached", apologyInsert := .ok ("e1", 3) }
      { doubts := [], messages := [] } =
      { doubts := [{ id := "d1", user_id := "u"
                     question := "Why is the sky blue?", subject := "General"
                     solved := false, timestamp := 1 }]
        messages := [{ id := "m1", doubt_id := "d1"
                       content := "Why is the sky blue?", sender := "user"
                       timestamp := 2 }] } ∧
    (messagesFor
        (handleSubmitQuestion
          { userId := "u", newQuestion := "Why is the sky blue?"
            selectedDoubtId := none
            doubtInsert := .ok ("d1", 1), msgInsert := .ok ("m1", 2)
            aiCall := .err "proxy failure"
            aiMsgInsert := .err "unreached", apologyInsert := .ok ("e1", 3) }
          { doubts := [], messages := [] }) "d1").filter
      (fun m => m.sender = "ai") = [] ∧
    (messagesFor
        (handleSubmitQuestion
          { userId := "u", newQuestion := "Why is the sky blue?"
            selectedDoubtId := some "d0"
            doubtInsert := .ok ("d1", 1), msgInsert := .ok ("m1", 2)
            aiCall := .err "proxy failure"
            aiMsgInsert := .err "unreached", apologyInsert := .ok ("e1", 3) }
          { doubts := [], messages := [] }) "d1").filter
      (fun m => m.sender = "ai") = [] ∧
    messagesFor
      (handleSubmitQuestion
        { userId := "u", newQuestion := "Why is the sky blue?"
          selectedDoubtId := some "d0"
          doubtInsert := .ok ("d1", 1), msgInsert := .ok ("m1", 2)
          aiCall := .err "proxy failure"
          aiMsgInsert := .err "unreached", apologyInsert := .ok ("e1", 3) }
        { doubts := [], messages := [] }) "d0" =
      [{ id := "e1", doubt_id := "d0", content := apologyText, sender := "ai"
         timestamp := 3 }] := by
  refine ⟨by decide, by decide, by decide, by decide⟩

/-- C7 counterexample: when the doubt insert succeeds but the
first-message insert fails, the doubt row persists while its held message
sequence is empty — a doubt exists whose message sequence has length 0,
refuting the claimed length lower bound (creation is two separate inserts,
not atomic). -/
theorem c7_counterexample_doubt_with_empty_thread :
    (handleSubmitQuestion
      { userId := "u", newQuestion := "What is inertia?"
        selectedDoubtId := none
        doubtInsert := .ok ("d1", 1), msgInsert := .err "message insert failed"
        aiCall := .err "unreached", aiMsgInsert := .err "unreached"
        apologyInsert := .err "unreached" }
      { doubts := [], messages := [] }).doubts =
      [{ id := "d1", user_id := "u", question := "What is inertia?"
         subject := "General", solved := false, timestamp := 1 }] ∧
    orderedMessagesFor
      (handleSubmitQuestion
        { userId := "u", newQuestion := "What is inertia?"
          selectedDoubtId := none
          doubtInsert := .ok ("d1", 1), msgInsert := .err "message insert failed"
          aiCall := .err "unreached", aiMsgInsert := .err "unreached"
          apologyInsert := .err "unreached" }
        { doubts := [], messages := [] }) "d1" = [] := by
  refine ⟨by decide, by decide⟩

theorem submitCatch_messages_superset (env : SubmitEnv) (st : DoubtStore)
    (m : MessageRow) (hm : m ∈ st.messages) :
    m ∈ (submitCatch env st).messages := by
  unfold submitCatch
  cases env.selectedDoubtId with
  | none => exact hm
  | some sel =>
    cases env.apologyInsert with
    | err _ => exact hm
    | ok v =>
      obtain ⟨eid, ets⟩ := v
      exact List.mem_append_left _ hm

/-- C7 amended: the message sequence held for a doubt after a fetch is
ordered by non-decreasing timestamps; and whenever the creation flow's
doubt insert and first-message insert both succeed, the created doubt's
persisted message sequence has length at least 1 (the initiating question
is its first message).  The length bound does not hold unconditionally:
see the counterexample where the first-message insert fails. -/
theorem c7_amended_sorted_and_first_message :
    (∀ (st : DoubtStore) (doubtId : String),
        List.Sorted (fun a b : MessageRow => a.timestamp ≤ b.timestamp)
          (orderedMessagesFor st doubtId)) ∧
    (∀ (env : SubmitEnv) (store : DoubtStore) (did mid : String) (dts mts : Nat),
        jsTrim env.newQuestion ≠ "" →
        env.doubtInsert = .ok (did, dts) →
        env.msgInsert = .ok (mid, mts) →
        1 ≤ (messagesFor (handleSubmitQuestion env store) did).length) := by
  constructor
  · intro st doubtId
    exact List.sorted_insertionSort _ _
  · intro env store did mid dts mts hq hins hmsg
    have hmem : ({ id := mid, doubt_id := did, content := env.newQuestion
                   sender := "user", timestamp := mts } : MessageRow) ∈
        (handleSubmitQuestion env store).messages := by
      unfold handleSubmitQuestion
      rw [if_neg hq, hins, hmsg]
      dsimp only
      cases env.aiCall with
      | err e =>
        exact submitCatch_messages_superset env _ _
          (List.mem_append_right _ (List.mem_singleton.mpr rfl))
      | ok answer =>
        cases env.aiMsgInsert with
        | err e =>
          exact submitCatch_messages_superset env _ _
            (List.mem_append_right _ (List.mem_singleton.mpr rfl))
        | ok v =>
          obtain ⟨aid, ats⟩ := v
          exact List.mem_append_left _
            (List.mem_append_right _ (List.mem_singleton.mpr rfl))
    have hmf : ({ id := mid, doubt_id := did, content := env.newQuestion
                  sender := "user", timestamp := mts } : MessageRow) ∈
        messagesFor (handleSubmitQuestion env store) did :=
      List.mem_filter.mpr ⟨hmem, by simp⟩
    have := List.ne_nil_of_mem hmf
    exact Nat.one_le_iff_ne_zero.mpr (by simpa [List.length_eq_zero] using this)

/-- Witness for C7 amended: both conclusions realised on a concrete
successful submission over the empty store. -/
theorem c7_witness :
    List.Sorted (fun a b : MessageRow => a.timestamp ≤ b.timestamp)
      (orderedMessagesFor { doubts := [], messages := [] } "d1") ∧
    1 ≤ (messagesFor
        (handleSubmitQuestion
          { userId := "u", newQuestion := "What is torque?"
            selectedDoubtId := none
            doubtInsert := .ok ("d1", 1), msgInsert := .ok ("m1", 2)
            aiCall := .ok "an answer", aiMsgInsert := .ok ("m2", 3)
            apologyInsert := .err "unreached" }
          { doubts := [], messages := [] }) "d1").length :=
  ⟨c7_amended_sorted_and_first_message.1 { doubts := [], messages := [] } "d1",
    c7_amended_sorted_and_first_message.2
      { userId := "u", newQuestion := "What is torque?"
        selectedDoubtId := none
        doubtInsert := .ok ("d1", 1), msgInsert := .ok ("m1", 2)
        aiCall := .ok "an answer", aiMsgInsert := .ok ("m2", 3)
        apologyInsert := .err "unreached" }
      { doubts := [], messages := [] } "d1" "m1" 1 2
      (by decide) rfl rfl⟩

/-- C8: a freshly created deck has totalCards 0 and no cards; adding N
generated cards (the server echoing one identity per inserted pair) yields
totalCards = N and N cards; and every deck-mutating operation — bulk add,
single-card create, delete (whose totalCards is recomputed as the filtered
collection's length), edit, and the fetch-time construction — preserves
totalCards = flashcards.length. -/
theorem c8_total_cards_tracks_collection :
    (∀ id name subject, deckCountInvariant (newDeckFromCreate id name subject)) ∧
    (∀ (id name subject : String) (cards : List Flashcard),
        deckCountInvariant (fetchedDeck id name subject cards)) ∧
    (∀ (deck : FlashcardDeck) (generated : List (String × String))
        (newIds : List String), deckCountInvariant deck →
        deckCountInvariant (addGeneratedFlashcards deck generated newIds)) ∧
    (∀ (deck : FlashcardDeck) (cardId front back : String),
        deckCountInvariant deck →
        deckCountInvariant (createFlashcardInDeck deck cardId front back)) ∧
    (∀ (deck : FlashcardDeck) (cardId : String),
        deckCountInvariant (deleteFlashcardFromDeck deck cardId)) ∧
    (∀ (deck : FlashcardDeck) (editCardId : Option String) (front back : String),
        deckCountInvariant deck →
        deckCountInvariant (saveEditInDeck deck editCardId front back)) ∧
    (∀ (id name subject : String) (generated : List (String × String))
        (newIds : List String), newIds.length = generated.length →
        (addGeneratedFlashcards (newDeckFromCreate id name subject) generated
            newIds).totalCards = generated.length ∧
        (addGeneratedFlashcards (newDeckFromCreate id name subject) generated
            newIds).flashcards.length = generated.length) := by
  refine ⟨?_, ?_, ?_, ?_, ?_, ?_, ?_⟩
  · intro id name subject
    simp [deckCountInvariant, newDeckFromCreate]
  · intro id name subject cards
    simp [deckCountInvariant, fetchedDeck]
  · intro deck generated newIds hinv
    unfold deckCountInvariant addGeneratedFlashcards at *
    split
    · exact hinv
    · simp only [List.length_append, List.length_map]
      omega
  · intro deck cardId front back hinv
    unfold deckCountInvariant createFlashcardInDeck at *
    split
    · exact hinv
    · simp only [List.length_append, List.length_singleton]
      omega
  · intro deck cardId
    simp [deckCountInvariant, deleteFlashcardFromDeck]
  · intro deck editCardId front back hinv
    unfold deckCountInvariant saveEditInDeck at *
    cases editCardId with
    | none => exact hinv
    | some cardId =>
      dsimp only
      split
      · exact hinv
      · simpa using hinv
  · intro id name subject generated newIds hlen
    unfold addGeneratedFlashcards newDeckFromCreate
    by_cases hg : generated.isEmpty
    · have : generated = [] := List.isEmpty_iff.mp hg
      subst this
      simp [hg]
    · rw [if_neg hg]
      simp only [List.length_append, List.length_map, List.length_zip,
        List.length_nil]
      omega

/-- Witness for C8: the create-then-add-two round trip realised
concretely; the invariant hypotheses of the applied conjuncts hold by
evaluation. -/
theorem c8_witness :
    (addGeneratedFlashcards (newDeckFromCreate "k" "Deck" "Math")
        [("q1", "a1"), ("q2", "a2")] ["f1", "f2"]).totalCards = 2 ∧
    (addGeneratedFlashcards (newDeckFromCreate "k" "Deck" "Math")
        [("q1", "a1"), ("q2", "a2")] ["f1", "f2"]).flashcards.length = 2 :=
  c8_total_cards_tracks_collection.2.2.2.2.2.2 "k" "Deck" "Math"
    [("q1", "a1"), ("q2", "a2")] ["f1", "f2"] (by decide)

/-- C9 counterexample: the download name built for the title "My Notes" is
"my_notes.pdf" — its name part contains an underscore, which is neither a
lower-case letter nor a digit, so the name part is not alphanumeric-only
(the sanitizer substitutes underscores rather than deleting the offending
characters). -/
theorem c9_counterexample_underscore_in_name :
    downloadFileName "My Notes".data = "my_notes.pdf".data ∧
    '_' ∈ downloadBaseName "My Notes".data ∧
    charIsLowerOrDigit '_' = false := by
  refine ⟨by decide, by decide, by decide⟩

theorem sanitized_char_class (c : Char) :
    charIsLowerOrDigit (jsToLowerChar (sanitizeTitleChar c)) = true ∨
    jsToLowerChar (sanitizeTitleChar c) = '_' := by
  unfold sanitizeTitleChar
  by_cases ha : isAsciiAlnum c
  · rw [if_pos ha]
    unfold isAsciiAlnum at ha
    simp only [Bool.or_eq_true, Bool.and_eq_true, decide_eq_true_eq] at ha
    unfold jsToLowerChar
    rcases ha with (⟨h1, h2⟩ | ⟨h1, h2⟩) | ⟨h1, h2⟩
    · rw [if_neg (by simp only [Bool.and_eq_true, decide_eq_true_eq, not_and]; omega)]
      left
      unfold charIsLowerOrDigit
      simp only [Bool.or_eq_true, Bool.and_eq_true, decide_eq_true_eq]
      omega
    · rw [if_pos (by simp only [Bool.and_eq_true, decide_eq_true_eq]; omega)]
      left
      have hv : (Char.ofNat (c.toNat + 32)).toNat = c.toNat + 32 := by
        have hvalid : (c.toNat + 32).isValidChar := Or.inl (by omega)
        unfold Char.ofNat
        rw [dif_pos hvalid]
        simp [Char.ofNatAux, Char.toNat, UInt32.toNat]
      unfold charIsLowerOrDigit
      simp only [hv, Bool.or_eq_true, Bool.and_eq_true, decide_eq_true_eq]
      omega
    · rw [if_neg (by simp only [Bool.and_eq_true, decide_eq_true_eq, not_and]; omega)]
      left
      unfold charIsLowerOrDigit
      simp only [Bool.or_eq_true, Bool.and_eq_true, decide_eq_true_eq]
      omega
  · rw [if_neg ha]
    right
    decide

/-- C9 amended: the offered filename is the sanitized lower-cased name
part followed by the fixed extension ".pdf", and every character of the
name part is a lower-case letter, a digit, or an underscore (the
replacement character of the sanitizer). -/
theorem c9_amended_sanitized_filename :
    ∀ title : List Char,
      downloadFileName title = downloadBaseName title ++ ['.', 'p', 'd', 'f'] ∧
      ∀ c ∈ downloadBaseName title, charIsLowerOrDigit c = true ∨ c = '_' := by
  intro title
  refine ⟨rfl, ?_⟩
  intro c hc
  unfold downloadBaseName at hc
  rcases List.mem_map.mp hc with ⟨c1, hc1, rfl⟩
  rcases List.mem_map.mp hc1 with ⟨c0, -, rfl⟩
  exact sanitized_char_class c0

/-- Witness for C9 amended: the character-class conclusion realised on the
concrete title "My Notes". -/
theorem c9_witness :
    downloadFileName "My Notes".data =
      downloadBaseName "My Notes".data ++ ['.', 'p', 'd', 'f'] ∧
    ∀ c ∈ downloadBaseName "My Notes".data,
      charIsLowerOrDigit c = true ∨ c = '_' :=
  c9_amended_sanitized_filename "My Notes".data
